import Mathlib

/-!
# Verification of the zerver RequestId filter (src/filter/request_id.go)

Shallow embedding of the request-deduplication guard of `unixc3t/zerver`:
the `IDStore` contract with its `MemIDStore` implementation (a mutex-guarded
set of strings; the mutex only serializes the critical sections, so the
sequential embedding is the set itself), the `RedisIDStore` initialization
logic, and the `RequestId` filter policy.  The filter is embedded as a pure
function from a request and a store state to the list of observable events it
performs (header extraction, store calls, response actions, chain invocation,
logger output) together with the resulting store state.
-/

/-- Go `error` values as the filter distinguishes them: `nil` is modelled by
`Option.none`, the sentinel `ErrRequestIDExist` by `GoErr.requestIDExist`,
and any other error value (e.g. a redis transport failure) by `GoErr.err s`
carrying its message. -/
inductive GoErr where
  | requestIDExist : GoErr
  | err : String → GoErr
deriving DecidableEq, Repr

/-- `MemIDStore` from request_id.go: `requests map[string]struct{}` guarded by
`lock sync.RWMutex`.  The map is a set of keys; the lock only makes
`Save`/`Remove` atomic critical sections, so the state is just the key set,
kept as a duplicate-free list (Go map keys are unique). -/
structure MemIDStore where
  requests : List String
deriving DecidableEq, Repr

/-- `func (m *MemIDStore) Init(zerver.Enviroment) error`: allocates an empty
map and returns nil.  The environment argument is unused by the source. -/
def MemIDStore.Init : Option GoErr × MemIDStore :=
  (none, ⟨[]⟩)

/-- `func (m *MemIDStore) Save(id string) (err error)`: under the lock, if
`id` is already a key of `m.requests` return `ErrRequestIDExist`, otherwise
insert `id` and return nil. -/
def MemIDStore.Save (m : MemIDStore) (id : String) : Option GoErr × MemIDStore :=
  if id ∈ m.requests then
    (some GoErr.requestIDExist, m)
  else
    (none, ⟨id :: m.requests⟩)

/-- `func (m *MemIDStore) Remove(id string) error`: under the lock,
`delete(m.requests, id)` and return nil unconditionally (Go `delete` is a
no-op when the key is absent). -/
def MemIDStore.Remove (m : MemIDStore) (id : String) : Option GoErr × MemIDStore :=
  (none, ⟨m.requests.filter (fun x => x ≠ id)⟩)

/-- Iterated `Save` of the same key: `saveSeq m k n` performs `n` successive
`Save k` calls starting from state `m`, collecting the returned errors in
order together with the final state. -/
def saveSeq (m : MemIDStore) (k : String) : Nat → List (Option GoErr) × MemIDStore
  | 0 => ([], m)
  | n + 1 =>
    let r := m.Save k
    let rest := saveSeq r.2 k n
    (r.1 :: rest.1, rest.2)

lemma saveSeq_of_mem (k : String) (n : Nat) :
    ∀ m : MemIDStore, k ∈ m.requests →
      (saveSeq m k n).1 = List.replicate n (some GoErr.requestIDExist) := by
  induction n with
  | zero => intro m _; rfl
  | succ n ih =>
    intro m hm
    simp only [saveSeq, MemIDStore.Save, if_pos hm, List.replicate]
    exact congrArg _ (ih m hm)

/-- Claim C1: for every key `k`, `MemIDStore.Save k` returns nil and adds `k` when
`k` is not a member, returns `ErrRequestIDExist` leaving the state unchanged
when `k` is a member; hence in a run of `n + 1` consecutive `Save k` calls
with no intervening `Remove k`, exactly the first returns success and all `n`
later ones return the already-exists error. -/
theorem mem_save_first_succeeds_then_exists (m : MemIDStore) (k : String) (n : Nat)
    (h : k ∉ m.requests) :
    (m.Save k).1 = none ∧
    k ∈ (m.Save k).2.requests ∧
    (∀ m' : MemIDStore, k ∈ m'.requests →
      (m'.Save k).1 = some GoErr.requestIDExist ∧ (m'.Save k).2 = m') ∧
    (saveSeq m k (n + 1)).1 =
      none :: List.replicate n (some GoErr.requestIDExist) := by
  refine ⟨?_, ?_, ?_, ?_⟩
  · simp [MemIDStore.Save, h]
  · simp [MemIDStore.Save, h]
  · intro m' hm'
    simp [MemIDStore.Save, hm']
  · simp only [saveSeq, MemIDStore.Save, if_neg h]
    refine congrArg _ (saveSeq_of_mem k n _ ?_)
    exact List.mem_cons_self k m.requests

/-- Claim C1 witness: on the empty store, three consecutive `Save "a"` calls return
nil, already-exists, already-exists. -/
theorem mem_save_first_succeeds_then_exists_witness :
    (MemIDStore.Save ⟨[]⟩ "a").1 = none ∧
    "a" ∈ (MemIDStore.Save ⟨[]⟩ "a").2.requests ∧
    (saveSeq ⟨[]⟩ "a" 3).1 =
      [none, some GoErr.requestIDExist, some GoErr.requestIDExist] := by
  have h := mem_save_first_succeeds_then_exists ⟨[]⟩ "a" 2 (by decide)
  exact ⟨h.1, h.2.1, h.2.2.2⟩

/-- Claim C9: `MemIDStore.Remove` always returns nil; on a state not containing the
key it is a no-op (the state is unchanged), and a second `Remove` of the same
key (double release) also returns nil. -/
theorem mem_remove_idempotent_nil (m : MemIDStore) (k : String) :
    (m.Remove k).1 = none ∧
    (k ∉ m.requests → (m.Remove k).2 = m) ∧
    ((m.Remove k).2.Remove k).1 = none := by
  refine ⟨rfl, ?_, rfl⟩
  intro h
  simp only [MemIDStore.Remove]
  cases m with
  | mk l =>
    simp only [MemIDStore.mk.injEq]
    refine List.filter_eq_self.mpr ?_
    intro x hx
    simp only [ne_eq, decide_eq_true_eq]
    exact fun hxk => h (hxk ▸ hx)

/-- Claim C9 witness: removing `"b"` from a store holding only `"a"` returns nil
and leaves the store unchanged; a second removal also returns nil. -/
theorem mem_remove_idempotent_nil_witness :
    (MemIDStore.Remove ⟨["a"]⟩ "b").1 = none ∧
    (MemIDStore.Remove ⟨["a"]⟩ "b").2 = ⟨["a"]⟩ ∧
    ((MemIDStore.Remove ⟨["a"]⟩ "b").2.Remove "b").1 = none := by
  have h := mem_remove_idempotent_nil ⟨["a"]⟩ "b"
  exact ⟨h.1, h.2.1 (by decide), h.2.2⟩

/-- Claim C3: from any state in which `Save k` succeeds, performing that `Save k`
and then `Remove k` returns the store to a state where `Save k` succeeds
again: release enables reuse. -/
theorem save_remove_save_succeeds (m : MemIDStore) (k : String)
    (h : (m.Save k).1 = none) :
    ((((m.Save k).2.Remove k).2).Save k).1 = none := by
  have hfilter : k ∉ (((m.Save k).2.Remove k).2).requests := by
    simp [MemIDStore.Remove, List.mem_filter]
  generalize ((m.Save k).2.Remove k).2 = m2 at hfilter ⊢
  simp [MemIDStore.Save, hfilter]

/-- Claim C3 witness: on the empty store, `Save "a"` succeeds, and after
`Remove "a"` a further `Save "a"` succeeds again. -/
theorem save_remove_save_succeeds_witness :
    (MemIDStore.Save ⟨[]⟩ "a").1 = none ∧
    ((((MemIDStore.Save ⟨[]⟩ "a").2.Remove "a").2).Save "a").1 = none :=
  ⟨by decide, save_remove_save_succeeds ⟨[]⟩ "a" (by decide)⟩

/-- An HTTP-like request as the filter consumes it: `req.Method()`,
`req.Header(name)` (returns `""` for an absent header, as in Go), and
`req.RemoteIP()`. -/
structure Request where
  method : String
  header : String → String
  remoteIP : String

/-- The `RequestId` filter configuration: the fields of the Go struct that the
`Filter` method reads.  The `Store` interface value and the `logger` are
modelled as explicit parameters / trace events of `RequestId.Filter`. -/
structure RequestId where
  HeaderName : String
  PassingOnNoId : Bool
  Error : String
  ErrorOverlap : String
deriving DecidableEq, Repr

/-- The `IDStore` interface: `Save(id) error` and `Remove(id) error`, embedded
as state transformers over an implementation-chosen state type `σ`. -/
structure IDStore (σ : Type) where
  save : σ → String → Option GoErr × σ
  remove : σ → String → Option GoErr × σ

/-- `MemIDStore` seen through the `IDStore` interface. -/
def memStore : IDStore MemIDStore :=
  { save := MemIDStore.Save, remove := MemIDStore.Remove }

/-- The scope key computed by the filter: `id := req.RemoteIP() + ":" + reqId`. -/
def scopeKey (remoteIP reqId : String) : String :=
  remoteIP ++ ":" ++ reqId

/-- Observable actions of one `RequestId.Filter` run, in execution order:
header extraction, store calls, response-shaping calls, invocation of the
downstream chain, and logger output (`ri.logger.Panicln`). -/
inductive Event where
  | headerRead : String → Event
  | chainInvoked : Event
  | reportForbidden : Event
  | reportBadRequest : Event
  | send : String → String → Event
  | storeSave : String → Event
  | storeRemove : String → Event
  | logPanicln : GoErr → Event
deriving DecidableEq, Repr

/-- Whether an event is logger output: the only operator-visible channel the
filter writes to. -/
def Event.isLog : Event → Bool
  | Event.logPanicln _ => true
  | _ => false

/-- `func (ri *RequestId) Filter(req, resp, chain)` from request_id.go,
line by line: GET requests bypass everything; an empty token header either
passes through (`PassingOnNoId`) or is rejected with a bad-request response;
otherwise the scope key is saved: `ErrRequestIDExist` yields a forbidden
response, any other error is passed to `logger.Panicln` (which panics, so the
chain is never reached), and success runs the chain and then removes the key,
discarding `Remove`'s return value. -/
def RequestId.Filter {σ : Type} (store : IDStore σ) (ri : RequestId) (st : σ)
    (req : Request) : List Event × σ :=
  if req.method = "GET" then
    ([Event.chainInvoked], st)
  else
    let reqId := req.header ri.HeaderName
    if reqId = "" then
      if ri.PassingOnNoId then
        ([Event.headerRead ri.HeaderName, Event.chainInvoked], st)
      else
        ([Event.headerRead ri.HeaderName, Event.reportBadRequest,
          Event.send "error" ri.Error], st)
    else
      let id := scopeKey req.remoteIP reqId
      let r := store.save st id
      match r.1 with
      | some GoErr.requestIDExist =>
        ([Event.headerRead ri.HeaderName, Event.storeSave id,
          Event.reportForbidden, Event.send "error" ri.ErrorOverlap], r.2)
      | some (GoErr.err s) =>
        ([Event.headerRead ri.HeaderName, Event.storeSave id,
          Event.logPanicln (GoErr.err s)], r.2)
      | none =>
        ([Event.headerRead ri.HeaderName, Event.storeSave id,
          Event.chainInvoked, Event.storeRemove id],
         (store.remove r.2 id).2)

/-- Claim C6: a GET request is passed straight to the chain: no header is
read, no store call happens, the store state is untouched. -/
theorem filter_get_bypass {σ : Type} (store : IDStore σ) (ri : RequestId)
    (st : σ) (req : Request) (hm : req.method = "GET") :
    RequestId.Filter store ri st req = ([Event.chainInvoked], st) := by
  simp [RequestId.Filter, hm]

/-- Claim C6 witness: a concrete GET request with a token header set still
bypasses the filter over the in-memory store. -/
theorem filter_get_bypass_witness :
    RequestId.Filter memStore
      ⟨"X-Request-Id", false, "header value X-Request-Id can't be empty",
       "request already accepted before, please wait"⟩
      ⟨[]⟩ ⟨"GET", fun _ => "abc", "1.2.3.4"⟩ = ([Event.chainInvoked], ⟨[]⟩) :=
  filter_get_bypass memStore _ ⟨[]⟩ ⟨"GET", fun _ => "abc", "1.2.3.4"⟩ rfl

/-- The configuration produced by `RequestId.Init` defaults with
`PassingOnNoId = false`. -/
def cfgDefault : RequestId :=
  ⟨"X-Request-Id", false, "header value X-Request-Id can't be empty",
   "request already accepted before, please wait"⟩

/-- The default configuration with `PassingOnNoId = true`. -/
def cfgPassing : RequestId :=
  ⟨"X-Request-Id", true, "header value X-Request-Id can't be empty",
   "request already accepted before, please wait"⟩

/-- A POST request from client `1.2.3.4` carrying token `"abc"` in every
header (in particular in `X-Request-Id`). -/
def postReq : Request :=
  ⟨"POST", fun _ => "abc", "1.2.3.4"⟩

/-- A POST request from client `1.2.3.4` with no token header (`Header`
returns `""`). -/
def noIdReq : Request :=
  ⟨"POST", fun _ => "", "1.2.3.4"⟩

/-- Claim C7: a non-GET request with an empty token header is passed to the
chain when `PassingOnNoId` is set, and otherwise rejected with a bad-request
response carrying the configured missing-token message; in both cases the
store is never called and its state is unchanged. -/
theorem filter_missing_token {σ : Type} (store : IDStore σ) (ri : RequestId)
    (st : σ) (req : Request) (hm : ¬ req.method = "GET")
    (hh : req.header ri.HeaderName = "") :
    (ri.PassingOnNoId = true →
      RequestId.Filter store ri st req =
        ([Event.headerRead ri.HeaderName, Event.chainInvoked], st)) ∧
    (ri.PassingOnNoId = false →
      RequestId.Filter store ri st req =
        ([Event.headerRead ri.HeaderName, Event.reportBadRequest,
          Event.send "error" ri.Error], st)) := by
  constructor <;> intro hp <;> simp [RequestId.Filter, hm, hh, hp]

/-- Claim C7 witness: with no token header, the passing configuration invokes
the chain and the default configuration sends the bad-request rejection; the
in-memory store stays empty either way. -/
theorem filter_missing_token_witness :
    RequestId.Filter memStore cfgPassing ⟨[]⟩ noIdReq =
      ([Event.headerRead "X-Request-Id", Event.chainInvoked], ⟨[]⟩) ∧
    RequestId.Filter memStore cfgDefault ⟨[]⟩ noIdReq =
      ([Event.headerRead "X-Request-Id", Event.reportBadRequest,
        Event.send "error" "header value X-Request-Id can't be empty"], ⟨[]⟩) :=
  ⟨(filter_missing_token memStore cfgPassing ⟨[]⟩ noIdReq (by decide) rfl).1 rfl,
   (filter_missing_token memStore cfgDefault ⟨[]⟩ noIdReq (by decide) rfl).2 rfl⟩

/-- Claim C2: a non-GET request with a non-empty token whose `Save` returns
`ErrRequestIDExist` produces exactly a forbidden response with the configured
`ErrorOverlap` message, and the chain is never invoked. -/
theorem filter_forbidden_on_duplicate {σ : Type} (store : IDStore σ)
    (ri : RequestId) (st : σ) (req : Request)
    (hm : ¬ req.method = "GET") (hh : ¬ req.header ri.HeaderName = "")
    (hs : (store.save st (scopeKey req.remoteIP (req.header ri.HeaderName))).1 =
      some GoErr.requestIDExist) :
    RequestId.Filter store ri st req =
      ([Event.headerRead ri.HeaderName,
        Event.storeSave (scopeKey req.remoteIP (req.header ri.HeaderName)),
        Event.reportForbidden, Event.send "error" ri.ErrorOverlap],
       (store.save st (scopeKey req.remoteIP (req.header ri.HeaderName))).2) ∧
    Event.chainInvoked ∉ (RequestId.Filter store ri st req).1 := by
  have heq : RequestId.Filter store ri st req =
      ([Event.headerRead ri.HeaderName,
        Event.storeSave (scopeKey req.remoteIP (req.header ri.HeaderName)),
        Event.reportForbidden, Event.send "error" ri.ErrorOverlap],
       (store.save st (scopeKey req.remoteIP (req.header ri.HeaderName))).2) := by
    simp only [RequestId.Filter, if_neg hm, if_neg hh, hs]
  refine ⟨heq, ?_⟩
  rw [heq]
  simp

/-- Claim C2 witness: with `1.2.3.4:abc` already claimed in the in-memory
store, the concrete POST request is rejected with the forbidden/overlap
response and the chain is not invoked. -/
theorem filter_forbidden_on_duplicate_witness :
    RequestId.Filter memStore cfgDefault ⟨["1.2.3.4:abc"]⟩ postReq =
      ([Event.headerRead "X-Request-Id",
        Event.storeSave (scopeKey "1.2.3.4" "abc"),
        Event.reportForbidden,
        Event.send "error" "request already accepted before, please wait"],
       ⟨["1.2.3.4:abc"]⟩) ∧
    Event.chainInvoked ∉
      (RequestId.Filter memStore cfgDefault ⟨["1.2.3.4:abc"]⟩ postReq).1 :=
  filter_forbidden_on_duplicate memStore cfgDefault ⟨["1.2.3.4:abc"]⟩ postReq
    (by decide) (by decide) (by decide)

/-- An `IDStore` whose backend is unreachable: every `Save` fails with a
transport error (modelling `RedisIDStore.Save` when `r.redis.Exec` fails). -/
def downStore : IDStore Unit :=
  { save := fun st _ => (some (GoErr.err "redis unreachable"), st),
    remove := fun st _ => (none, st) }

/-- Claim C4: when `Save` returns an error that is not `ErrRequestIDExist`,
the filter never invokes the chain (fail closed) and the error is handed to
`logger.Panicln` — an operator-visible channel — rather than discarded; no
forbidden response is produced, so the fault is distinct from a duplicate
rejection. -/
theorem filter_fail_closed_on_backend_error {σ : Type} (store : IDStore σ)
    (ri : RequestId) (st : σ) (req : Request) (s : String)
    (hm : ¬ req.method = "GET") (hh : ¬ req.header ri.HeaderName = "")
    (hs : (store.save st (scopeKey req.remoteIP (req.header ri.HeaderName))).1 =
      some (GoErr.err s)) :
    RequestId.Filter store ri st req =
      ([Event.headerRead ri.HeaderName,
        Event.storeSave (scopeKey req.remoteIP (req.header ri.HeaderName)),
        Event.logPanicln (GoErr.err s)],
       (store.save st (scopeKey req.remoteIP (req.header ri.HeaderName))).2) ∧
    Event.chainInvoked ∉ (RequestId.Filter store ri st req).1 ∧
    Event.logPanicln (GoErr.err s) ∈ (RequestId.Filter store ri st req).1 ∧
    Event.reportForbidden ∉ (RequestId.Filter store ri st req).1 := by
  have heq : RequestId.Filter store ri st req =
      ([Event.headerRead ri.HeaderName,
        Event.storeSave (scopeKey req.remoteIP (req.header ri.HeaderName)),
        Event.logPanicln (GoErr.err s)],
       (store.save st (scopeKey req.remoteIP (req.header ri.HeaderName))).2) := by
    simp only [RequestId.Filter, if_neg hm, if_neg hh, hs]
  refine ⟨heq, ?_, ?_, ?_⟩ <;> rw [heq] <;> simp

/-- Claim C4 witness: with the unreachable backend, the concrete POST request
is never passed to the chain and the transport error reaches the logger. -/
theorem filter_fail_closed_on_backend_error_witness :
    RequestId.Filter downStore cfgDefault () postReq =
      ([Event.headerRead "X-Request-Id",
        Event.storeSave (scopeKey "1.2.3.4" "abc"),
        Event.logPanicln (GoErr.err "redis unreachable")], ()) ∧
    Event.chainInvoked ∉ (RequestId.Filter downStore cfgDefault () postReq).1 ∧
    Event.logPanicln (GoErr.err "redis unreachable") ∈
      (RequestId.Filter downStore cfgDefault () postReq).1 ∧
    Event.reportForbidden ∉ (RequestId.Filter downStore cfgDefault () postReq).1 :=
  filter_fail_closed_on_backend_error downStore cfgDefault () postReq
    "redis unreachable" (by decide) (by decide) (by decide)

/-- An `IDStore` whose `Save` succeeds but whose `Remove` always fails
(modelling `SREM` failing on a broken connection after a successful claim). -/
def removeFailStore : IDStore Unit :=
  { save := fun st _ => (none, st),
    remove := fun st _ => (some (GoErr.err "remove failed"), st) }

/-- Claim C5 counterexample: over a store whose `Remove` fails, the filter
run on a successful claim invokes the chain and then calls `Remove` — which
here returns an error — yet its trace contains no logger event at all: the
failure of `Remove` is not made observable to operators, contrary to the
claim.  (In the source the call is `ri.Store.Remove(id)` with the returned
error discarded.) -/
theorem filter_remove_failure_unlogged_cex :
    (removeFailStore.remove () (scopeKey "1.2.3.4" "abc")).1 =
      some (GoErr.err "remove failed") ∧
    Event.chainInvoked ∈
      (RequestId.Filter removeFailStore cfgDefault () postReq).1 ∧
    Event.storeRemove (scopeKey "1.2.3.4" "abc") ∈
      (RequestId.Filter removeFailStore cfgDefault () postReq).1 ∧
    ((RequestId.Filter removeFailStore cfgDefault () postReq).1.all
      fun ev => !ev.isLog) = true := by
  decide

/-- Claim C5 (amended): when `Save` succeeds the filter invokes the chain
synchronously and afterwards calls `Remove` on the same scope key, and a
failure of that `Remove` is not escalated to the caller — but it is also not
logged or otherwise made observable: the trace is exactly header read, save,
chain, remove, with no logger event, and `Remove`'s error component is
dropped on the floor. -/
theorem filter_release_after_chain {σ : Type} (store : IDStore σ)
    (ri : RequestId) (st : σ) (req : Request)
    (hm : ¬ req.method = "GET") (hh : ¬ req.header ri.HeaderName = "")
    (hs : (store.save st (scopeKey req.remoteIP (req.header ri.HeaderName))).1 =
      none) :
    RequestId.Filter store ri st req =
      ([Event.headerRead ri.HeaderName,
        Event.storeSave (scopeKey req.remoteIP (req.header ri.HeaderName)),
        Event.chainInvoked,
        Event.storeRemove (scopeKey req.remoteIP (req.header ri.HeaderName))],
       (store.remove
         (store.save st (scopeKey req.remoteIP (req.header ri.HeaderName))).2
         (scopeKey req.remoteIP (req.header ri.HeaderName))).2) ∧
    ((RequestId.Filter store ri st req).1.all fun ev => !ev.isLog) = true := by
  have heq : RequestId.Filter store ri st req =
      ([Event.headerRead ri.HeaderName,
        Event.storeSave (scopeKey req.remoteIP (req.header ri.HeaderName)),
        Event.chainInvoked,
        Event.storeRemove (scopeKey req.remoteIP (req.header ri.HeaderName))],
       (store.remove
         (store.save st (scopeKey req.remoteIP (req.header ri.HeaderName))).2
         (scopeKey req.remoteIP (req.header ri.HeaderName))).2) := by
    simp only [RequestId.Filter, if_neg hm, if_neg hh, hs]
  refine ⟨heq, ?_⟩
  rw [heq]
  simp [Event.isLog]

/-- Claim C5 (amended) witness: on the empty in-memory store the concrete
POST request is claimed, the chain runs, and the key is removed again, with
no logger event in the trace. -/
theorem filter_release_after_chain_witness :
    RequestId.Filter memStore cfgDefault ⟨[]⟩ postReq =
      ([Event.headerRead "X-Request-Id",
        Event.storeSave (scopeKey "1.2.3.4" "abc"),
        Event.chainInvoked,
        Event.storeRemove (scopeKey "1.2.3.4" "abc")],
       (memStore.remove (memStore.save ⟨[]⟩ (scopeKey "1.2.3.4" "abc")).2
         (scopeKey "1.2.3.4" "abc")).2) ∧
    ((RequestId.Filter memStore cfgDefault ⟨[]⟩ postReq).1.all
      fun ev => !ev.isLog) = true :=
  filter_release_after_chain memStore cfgDefault ⟨[]⟩ postReq
    (by decide) (by decide) (by decide)

/-- Claim C8: two requests carrying the same token from different remote IPs
produce distinct scope keys (suffixing `":" ++ token` is injective in the IP),
so saving both keys into a fresh in-memory store succeeds for each. -/
theorem scope_keys_distinct (ip1 ip2 tok : String) (h : ¬ ip1 = ip2) :
    ¬ scopeKey ip1 tok = scopeKey ip2 tok ∧
    (MemIDStore.Save ⟨[]⟩ (scopeKey ip1 tok)).1 = none ∧
    ((MemIDStore.Save ⟨[]⟩ (scopeKey ip1 tok)).2.Save (scopeKey ip2 tok)).1 =
      none := by
  have hne : ¬ scopeKey ip1 tok = scopeKey ip2 tok := by
    intro he
    apply h
    have hd := congrArg String.data he
    simp only [scopeKey, String.data_append] at hd
    exact String.ext (List.append_cancel_right (List.append_cancel_right hd))
  refine ⟨hne, by simp [MemIDStore.Save], ?_⟩
  simp [MemIDStore.Save, Ne.symm hne]

/-- Claim C8 witness: clients `1.2.3.4` and `5.6.7.8` sharing token `tok1`
get distinct scope keys and both claims succeed on a fresh store. -/
theorem scope_keys_distinct_witness :
    ¬ scopeKey "1.2.3.4" "tok1" = scopeKey "5.6.7.8" "tok1" ∧
    (MemIDStore.Save ⟨[]⟩ (scopeKey "1.2.3.4" "tok1")).1 = none ∧
    ((MemIDStore.Save ⟨[]⟩ (scopeKey "1.2.3.4" "tok1")).2.Save
      (scopeKey "5.6.7.8" "tok1")).1 = none :=
  scope_keys_distinct "1.2.3.4" "5.6.7.8" "tok1" (by decide)

/-- `defval.String(s, d)` from gohper: sets `*s` to the default `d` when `*s`
is the empty string. -/
def defvalString (s d : String) : String :=
  if s = "" then d else s

/-- `RedisIDStore` from request_id.go: the redis set key and the handle to
`component.Redis` (modelled abstractly: present or nil). -/
structure RedisIDStore where
  Key : String
  redis : Option Unit
deriving DecidableEq, Repr

/-- `func (r *RedisIDStore) Init(env) error`: asks the environment for the
redis component; an environment error is returned as is, a nil component
yields the error `component redis isn't loaded`, and otherwise the handle is
stored and the set key defaulted to `"RequestID"`.  The embedding takes the
outcome of `env.Component(component.COMP_REDIS)` as two parameters: its error
and the (possibly nil) component value. -/
def RedisIDStore.Init (compErr : Option GoErr) (comp : Option Unit)
    (r : RedisIDStore) : Option GoErr × RedisIDStore :=
  match compErr with
  | some e => (some e, r)
  | none =>
    match comp with
    | none => (some (GoErr.err "component redis isn't loaded"), r)
    | some c => (none, { Key := defvalString r.Key "RequestID", redis := some c })

/-- `func (ri *RequestId) Init(env) error`: calls `ri.Store.Init(env)` with
its result discarded (the embedding receives that result as `storeInitErr`),
applies the string defaults to the configuration fields, and returns nil. -/
def RequestId.Init (storeInitErr : Option GoErr) (ri : RequestId) :
    Option GoErr × RequestId :=
  let _ := storeInitErr
  (none,
   { HeaderName := defvalString ri.HeaderName "X-Request-Id",
     PassingOnNoId := ri.PassingOnNoId,
     Error := defvalString ri.Error "header value X-Request-Id can't be empty",
     ErrorOverlap :=
       defvalString ri.ErrorOverlap
         "request already accepted before, please wait" })

/-- Claim C10: `RequestId.Init` returns nil whatever the store's own `Init`
returned — in particular for the error `RedisIDStore.Init` produces when the
redis component is not loaded — so the guard reports successful
initialization over a broken store. -/
theorem requestId_init_always_nil (e : Option GoErr) (ri : RequestId)
    (r : RedisIDStore) :
    (RequestId.Init e ri).1 = none ∧
    (RedisIDStore.Init none none r).1 =
      some (GoErr.err "component redis isn't loaded") ∧
    (RequestId.Init (RedisIDStore.Init none none r).1 ri).1 = none :=
  ⟨rfl, rfl, rfl⟩
